import Mathlib

/-!
Shallow embedding of the systemd-directories crate.

The crate reads five fixed environment variables (`RUNTIME_DIRECTORY`,
`STATE_DIRECTORY`, `CACHE_DIRECTORY`, `LOGS_DIRECTORY`,
`CONFIGURATION_DIRECTORY`) and exposes their colon-separated values as path
lists, either live (standalone functions) or captured in a `SystemdDirs`
snapshot at construction time.

The repository contains two generations of the live functions:
- `src/standalone.rs`: `ColonSeparatedPaths` splits on the colon and filters
  out empty segments (`.filter(|p| !p.as_os_str().is_empty())`), embedded here
  in the `Standalone` namespace;
- `src/lib.rs`: a monolithic implementation whose `*_dirs` functions split on
  the colon without filtering (`dirs.split(':').map(PathBuf::from).collect()`),
  embedded here in the `Lib` namespace.

Modelling choices: a path (`Path` / `PathBuf`) carries exactly the character
data of its segment, so paths are modelled as `List Char`; an environment is a
total map from variable names to an `EnvValue` that distinguishes an unset
variable from one set to a non-Unicode value (Rust `env::var` returns
`Err(NotPresent)` resp. `Err(NotUnicode)` for those) and from one set to an
ordinary string value.
-/

namespace SystemdDirectories

/-- Fixed variable name for the Runtime category. -/
def RUNTIME_DIRECTORY : String := "RUNTIME_DIRECTORY"

/-- Fixed variable name for the State category. -/
def STATE_DIRECTORY : String := "STATE_DIRECTORY"

/-- Fixed variable name for the Cache category. -/
def CACHE_DIRECTORY : String := "CACHE_DIRECTORY"

/-- Fixed variable name for the Logs category. -/
def LOGS_DIRECTORY : String := "LOGS_DIRECTORY"

/-- Fixed variable name for the Configuration category. -/
def CONFIGURATION_DIRECTORY : String := "CONFIGURATION_DIRECTORY"

/-- State of one environment variable: unset, set to a value that does not
decode as Unicode, or set to an ordinary string value (its characters). -/
inductive EnvValue where
  | unset
  | notUnicode
  | str (s : List Char)
  deriving DecidableEq

/-- A process environment: a total map from variable names to their state. -/
def Env : Type := String → EnvValue

/-- Error type of Rust `std::env::var` (`VarError`). -/
inductive VarError where
  | notPresent
  | notUnicode
  deriving DecidableEq

/-- Rust `std::env::var`: `Ok` with the value when the variable is set to a
Unicode string, `Err(NotPresent)` when unset, `Err(NotUnicode)` otherwise. -/
def env_var (e : Env) (k : String) : Except VarError (List Char) :=
  match e k with
  | .str s => .ok s
  | .unset => .error .notPresent
  | .notUnicode => .error .notUnicode

/-- Overwrite one variable of an environment (`std::env::set_var`, or
`remove_var` when the new state is `unset`). -/
def Env.set (e : Env) (k : String) (v : EnvValue) : Env :=
  fun q => if q = k then v else e q

/-- Rust `str::split(':')` on the character data of a string: cut at every
colon, keeping the (possibly empty) segments in order; the empty string yields
one empty segment. -/
def splitOnColon : List Char → List (List Char)
  | [] => [[]]
  | c :: cs =>
    if c = ':' then [] :: splitOnColon cs
    else
      match splitOnColon cs with
      | [] => [[c]]
      | t :: ts => (c :: t) :: ts

theorem splitOnColon_ne_nil (s : List Char) : splitOnColon s ≠ [] := by
  match s with
  | [] => simp [splitOnColon]
  | c :: cs =>
    simp only [splitOnColon]
    split
    · simp
    · split <;> simp

theorem splitOnColon_length (s : List Char) :
    (splitOnColon s).length = s.count ':' + 1 := by
  induction s with
  | nil => simp [splitOnColon]
  | cons c cs ih =>
    simp only [splitOnColon]
    by_cases h : c = ':'
    · subst h
      simp [List.count_cons, ih]
    · rw [if_neg h]
      rcases hsp : splitOnColon cs with _ | ⟨t, ts⟩
      · exact absurd hsp (splitOnColon_ne_nil cs)
      · have : (t :: ts).length = cs.count ':' + 1 := hsp ▸ ih
        simp only [List.length_cons] at this ⊢
        simp [List.count_cons, h, this]

theorem splitOnColon_of_not_mem (s : List Char) (h : ':' ∉ s) :
    splitOnColon s = [s] := by
  induction s with
  | nil => rfl
  | cons c cs ih =>
    have hc : c ≠ ':' := fun hc => h (hc ▸ List.mem_cons_self c cs)
    have hcs : ':' ∉ cs := fun hm => h (List.mem_cons_of_mem c hm)
    simp only [splitOnColon, if_neg hc, ih hcs]

namespace Standalone

/-- Struct `ColonSeparatedPaths` of `src/standalone.rs`: holds the
colon-separated paths string. -/
structure ColonSeparatedPaths where
  paths : List Char
  deriving DecidableEq

/-- Constructor `ColonSeparatedPaths::new`. -/
def ColonSeparatedPaths.new (paths : List Char) : ColonSeparatedPaths :=
  ⟨paths⟩

/-- Constructor `ColonSeparatedPaths::from_env_key`:
`Self::new(env::var(env_key).unwrap_or_default())`. -/
def ColonSeparatedPaths.from_env_key (e : Env) (env_key : String) :
    ColonSeparatedPaths :=
  ColonSeparatedPaths.new ((env_var e env_key).toOption.getD [])

/-- Method `ColonSeparatedPaths::iter`: split the stored string on the colon,
view each segment as a path, and keep only those whose `OsStr` is non-empty. -/
def ColonSeparatedPaths.iter (self : ColonSeparatedPaths) :
    List (List Char) :=
  (splitOnColon self.paths).filter (fun p => !p.isEmpty)

/-- Impl `From<ColonSeparatedPaths> for Vec<PathBuf>`:
`paths.iter().map(PathBuf::from).collect()`. -/
def ColonSeparatedPaths.toVec (self : ColonSeparatedPaths) :
    List (List Char) :=
  self.iter.map (fun p => p)

/-- Impl `From<ColonSeparatedPaths> for Option<PathBuf>`:
`paths.iter().next().map(PathBuf::from)`. -/
def ColonSeparatedPaths.toFirst (self : ColonSeparatedPaths) :
    Option (List Char) :=
  self.iter.head?.map (fun p => p)

/-- Standalone `runtime_dirs`. -/
def runtime_dirs (e : Env) : List (List Char) :=
  (ColonSeparatedPaths.from_env_key e RUNTIME_DIRECTORY).toVec

/-- Standalone `runtime_dir`. -/
def runtime_dir (e : Env) : Option (List Char) :=
  (ColonSeparatedPaths.from_env_key e RUNTIME_DIRECTORY).toFirst

/-- Standalone `state_dirs`. -/
def state_dirs (e : Env) : List (List Char) :=
  (ColonSeparatedPaths.from_env_key e STATE_DIRECTORY).toVec

/-- Standalone `state_dir`. -/
def state_dir (e : Env) : Option (List Char) :=
  (ColonSeparatedPaths.from_env_key e STATE_DIRECTORY).toFirst

/-- Standalone `cache_dirs`. -/
def cache_dirs (e : Env) : List (List Char) :=
  (ColonSeparatedPaths.from_env_key e CACHE_DIRECTORY).toVec

/-- Standalone `cache_dir`. -/
def cache_dir (e : Env) : Option (List Char) :=
  (ColonSeparatedPaths.from_env_key e CACHE_DIRECTORY).toFirst

/-- Standalone `logs_dirs`. -/
def logs_dirs (e : Env) : List (List Char) :=
  (ColonSeparatedPaths.from_env_key e LOGS_DIRECTORY).toVec

/-- Standalone `logs_dir`. -/
def logs_dir (e : Env) : Option (List Char) :=
  (ColonSeparatedPaths.from_env_key e LOGS_DIRECTORY).toFirst

/-- Standalone `config_dirs`. -/
def config_dirs (e : Env) : List (List Char) :=
  (ColonSeparatedPaths.from_env_key e CONFIGURATION_DIRECTORY).toVec

/-- Standalone `config_dir`. -/
def config_dir (e : Env) : Option (List Char) :=
  (ColonSeparatedPaths.from_env_key e CONFIGURATION_DIRECTORY).toFirst

end Standalone

namespace Lib

/-- Legacy `lib.rs` `runtime_dirs`:
`env::var("RUNTIME_DIRECTORY").ok().map(|dirs| dirs.split(':').map(PathBuf::from).collect()).unwrap_or_default()`. -/
def runtime_dirs (e : Env) : List (List Char) :=
  (((env_var e RUNTIME_DIRECTORY).toOption).map
    (fun dirs => (splitOnColon dirs).map (fun p => p))).getD []

/-- Legacy `lib.rs` `runtime_dir`: `runtime_dirs().first().cloned()`. -/
def runtime_dir (e : Env) : Option (List Char) :=
  (runtime_dirs e).head?

/-- Legacy `lib.rs` `state_dirs`. -/
def state_dirs (e : Env) : List (List Char) :=
  (((env_var e STATE_DIRECTORY).toOption).map
    (fun dirs => (splitOnColon dirs).map (fun p => p))).getD []

/-- Legacy `lib.rs` `state_dir`. -/
def state_dir (e : Env) : Option (List Char) :=
  (state_dirs e).head?

/-- Legacy `lib.rs` `cache_dirs`. -/
def cache_dirs (e : Env) : List (List Char) :=
  (((env_var e CACHE_DIRECTORY).toOption).map
    (fun dirs => (splitOnColon dirs).map (fun p => p))).getD []

/-- Legacy `lib.rs` `cache_dir`. -/
def cache_dir (e : Env) : Option (List Char) :=
  (cache_dirs e).head?

/-- Legacy `lib.rs` `logs_dirs`. -/
def logs_dirs (e : Env) : List (List Char) :=
  (((env_var e LOGS_DIRECTORY).toOption).map
    (fun dirs => (splitOnColon dirs).map (fun p => p))).getD []

/-- Legacy `lib.rs` `logs_dir`. -/
def logs_dir (e : Env) : Option (List Char) :=
  (logs_dirs e).head?

/-- Legacy `lib.rs` `config_dirs`. -/
def config_dirs (e : Env) : List (List Char) :=
  (((env_var e CONFIGURATION_DIRECTORY).toOption).map
    (fun dirs => (splitOnColon dirs).map (fun p => p))).getD []

/-- Legacy `lib.rs` `config_dir`. -/
def config_dir (e : Env) : Option (List Char) :=
  (config_dirs e).head?

end Lib

/-- The five directory categories. -/
inductive Category where
  | runtime
  | state
  | cache
  | logs
  | config
  deriving DecidableEq

/-- The fixed environment variable name of each category. -/
def Category.envKey : Category → String
  | .runtime => RUNTIME_DIRECTORY
  | .state => STATE_DIRECTORY
  | .cache => CACHE_DIRECTORY
  | .logs => LOGS_DIRECTORY
  | .config => CONFIGURATION_DIRECTORY

/-- Spec operation `list_for(category)` realised by the standalone functions:
dispatch to the category's `*_dirs` function. -/
def Standalone.list_for (e : Env) : Category → List (List Char)
  | .runtime => Standalone.runtime_dirs e
  | .state => Standalone.state_dirs e
  | .cache => Standalone.cache_dirs e
  | .logs => Standalone.logs_dirs e
  | .config => Standalone.config_dirs e

/-- Spec operation `primary_for(category)` realised by the standalone
functions: dispatch to the category's `*_dir` function. -/
def Standalone.primary_for (e : Env) : Category → Option (List Char)
  | .runtime => Standalone.runtime_dir e
  | .state => Standalone.state_dir e
  | .cache => Standalone.cache_dir e
  | .logs => Standalone.logs_dir e
  | .config => Standalone.config_dir e

/-- Per-category dispatch to the legacy `lib.rs` `*_dirs` functions. -/
def Lib.list_for (e : Env) : Category → List (List Char)
  | .runtime => Lib.runtime_dirs e
  | .state => Lib.state_dirs e
  | .cache => Lib.cache_dirs e
  | .logs => Lib.logs_dirs e
  | .config => Lib.config_dirs e

/-- Per-category dispatch to the legacy `lib.rs` `*_dir` functions. -/
def Lib.primary_for (e : Env) : Category → Option (List Char)
  | .runtime => Lib.runtime_dir e
  | .state => Lib.state_dir e
  | .cache => Lib.cache_dir e
  | .logs => Lib.logs_dir e
  | .config => Lib.config_dir e

/-- Struct `SystemdDirs` of `src/systemd_dirs.rs`: five captured path lists,
one per category. -/
structure SystemdDirs where
  runtime_dirs : List (List Char)
  state_dirs : List (List Char)
  cache_dirs : List (List Char)
  logs_dirs : List (List Char)
  config_dirs : List (List Char)
  deriving DecidableEq

/-- Constructor `SystemdDirs::new` of `src/systemd_dirs.rs`: capture the five
crate-level (standalone) `*_dirs` results for the current environment. -/
def SystemdDirs.new (e : Env) : SystemdDirs :=
  ⟨Standalone.runtime_dirs e, Standalone.state_dirs e, Standalone.cache_dirs e,
    Standalone.logs_dirs e, Standalone.config_dirs e⟩

/-- Helper `SystemdDirs::as_paths`: iterate a stored list of owned paths as
borrowed paths. -/
def SystemdDirs.as_paths (_self : SystemdDirs) (dirs : List (List Char)) :
    List (List Char) :=
  dirs.map (fun p => p)

/-- Method `SystemdDirs::runtime_dirs`: `self.as_paths(&self.runtime_dirs).collect()`. -/
def SystemdDirs.runtimeDirs (self : SystemdDirs) : List (List Char) :=
  self.as_paths self.runtime_dirs

/-- Method `SystemdDirs::runtime_dir`: `self.as_paths(&self.runtime_dirs).next()`. -/
def SystemdDirs.runtimeDir (self : SystemdDirs) : Option (List Char) :=
  (self.as_paths self.runtime_dirs).head?

/-- Method `SystemdDirs::state_dirs`. -/
def SystemdDirs.stateDirs (self : SystemdDirs) : List (List Char) :=
  self.as_paths self.state_dirs

/-- Method `SystemdDirs::state_dir`. -/
def SystemdDirs.stateDir (self : SystemdDirs) : Option (List Char) :=
  (self.as_paths self.state_dirs).head?

/-- Method `SystemdDirs::cache_dirs`. -/
def SystemdDirs.cacheDirs (self : SystemdDirs) : List (List Char) :=
  self.as_paths self.cache_dirs

/-- Method `SystemdDirs::cache_dir`. -/
def SystemdDirs.cacheDir (self : SystemdDirs) : Option (List Char) :=
  (self.as_paths self.cache_dirs).head?

/-- Method `SystemdDirs::logs_dirs`. -/
def SystemdDirs.logsDirs (self : SystemdDirs) : List (List Char) :=
  self.as_paths self.logs_dirs

/-- Method `SystemdDirs::logs_dir`. -/
def SystemdDirs.logsDir (self : SystemdDirs) : Option (List Char) :=
  (self.as_paths self.logs_dirs).head?

/-- Method `SystemdDirs::config_dirs`. -/
def SystemdDirs.configDirs (self : SystemdDirs) : List (List Char) :=
  self.as_paths self.config_dirs

/-- Method `SystemdDirs::config_dir`. -/
def SystemdDirs.configDir (self : SystemdDirs) : Option (List Char) :=
  (self.as_paths self.config_dirs).head?

/-- Spec accessor `list(category)` on a snapshot: dispatch to the category's
`*_dirs` method. -/
def SystemdDirs.list (self : SystemdDirs) : Category → List (List Char)
  | .runtime => self.runtimeDirs
  | .state => self.stateDirs
  | .cache => self.cacheDirs
  | .logs => self.logsDirs
  | .config => self.configDirs

/-- Spec accessor `primary(category)` on a snapshot: dispatch to the
category's `*_dir` method. -/
def SystemdDirs.primary (self : SystemdDirs) : Category → Option (List Char)
  | .runtime => self.runtimeDir
  | .state => self.stateDir
  | .cache => self.cacheDir
  | .logs => self.logsDir
  | .config => self.configDir

/-- Impl `Default for SystemdDirs` in `src/systemd_dirs.rs`: `Self::new()`. -/
def SystemdDirs.default (e : Env) : SystemdDirs :=
  SystemdDirs.new e

/-- Struct `SystemdDirs` as duplicated in the legacy `src/lib.rs`: same five
captured lists, but captured from the legacy (unfiltered) `*_dirs`
functions of that file. -/
structure LibSystemdDirs where
  runtime_dirs : List (List Char)
  state_dirs : List (List Char)
  cache_dirs : List (List Char)
  logs_dirs : List (List Char)
  config_dirs : List (List Char)
  deriving DecidableEq

/-- Constructor `SystemdDirs::new` of the legacy `src/lib.rs`. -/
def LibSystemdDirs.new (e : Env) : LibSystemdDirs :=
  ⟨Lib.runtime_dirs e, Lib.state_dirs e, Lib.cache_dirs e,
    Lib.logs_dirs e, Lib.config_dirs e⟩

/-- Impl `Default for SystemdDirs` in the legacy `src/lib.rs`: `Self::new()`. -/
def LibSystemdDirs.default (e : Env) : LibSystemdDirs :=
  LibSystemdDirs.new e

theorem Env.set_self (e : Env) (k : String) (v : EnvValue) :
    (e.set k v) k = v := by
  simp [Env.set]

theorem Env.set_other (e : Env) (k q : String) (v : EnvValue) (h : q ≠ k) :
    (e.set k v) q = e q := by
  simp [Env.set, h]

theorem env_var_congr (e1 e2 : Env) (k : String) (h : e1 k = e2 k) :
    env_var e1 k = env_var e2 k := by
  unfold env_var
  rw [h]

theorem Standalone.toVec_eq_iter (self : Standalone.ColonSeparatedPaths) :
    self.toVec = self.iter :=
  List.map_id' self.iter

theorem Standalone.toFirst_eq_head (self : Standalone.ColonSeparatedPaths) :
    self.toFirst = self.iter.head? := by
  simp [Standalone.ColonSeparatedPaths.toFirst]

theorem Standalone.list_for_eq (e : Env) (c : Category) :
    Standalone.list_for e c
      = (Standalone.ColonSeparatedPaths.from_env_key e c.envKey).iter := by
  cases c <;>
    simp [Standalone.list_for, Standalone.runtime_dirs, Standalone.state_dirs,
      Standalone.cache_dirs, Standalone.logs_dirs, Standalone.config_dirs,
      Standalone.toVec_eq_iter, Category.envKey]

theorem Standalone.primary_for_eq (e : Env) (c : Category) :
    Standalone.primary_for e c
      = (Standalone.ColonSeparatedPaths.from_env_key e c.envKey).iter.head? := by
  cases c <;>
    simp [Standalone.primary_for, Standalone.runtime_dir, Standalone.state_dir,
      Standalone.cache_dir, Standalone.logs_dir, Standalone.config_dir,
      Standalone.toFirst_eq_head, Category.envKey]

theorem Standalone.primary_eq_head (e : Env) (c : Category) :
    Standalone.primary_for e c = (Standalone.list_for e c).head? := by
  rw [Standalone.primary_for_eq, Standalone.list_for_eq]

theorem Standalone.list_for_str (e : Env) (c : Category) (v : List Char)
    (h : e c.envKey = EnvValue.str v) :
    Standalone.list_for e c = (splitOnColon v).filter (fun p => !p.isEmpty) := by
  rw [Standalone.list_for_eq]
  simp [Standalone.ColonSeparatedPaths.iter,
    Standalone.ColonSeparatedPaths.from_env_key,
    Standalone.ColonSeparatedPaths.new, env_var, Except.toOption, h]

theorem Standalone.list_for_absent (e : Env) (c : Category)
    (h : e c.envKey = EnvValue.unset ∨ e c.envKey = EnvValue.notUnicode) :
    Standalone.list_for e c = [] := by
  rw [Standalone.list_for_eq]
  rcases h with h | h <;>
    simp [Standalone.ColonSeparatedPaths.iter,
      Standalone.ColonSeparatedPaths.from_env_key,
      Standalone.ColonSeparatedPaths.new, env_var, Except.toOption, h, splitOnColon]

theorem Lib.lib_list_for_unfold (e : Env) (c : Category) :
    Lib.list_for e c
      = (((env_var e c.envKey).toOption).map
          (fun dirs => (splitOnColon dirs).map (fun p => p))).getD [] := by
  cases c <;> rfl

theorem Lib.lib_primary_for_head (e : Env) (c : Category) :
    Lib.primary_for e c = (Lib.list_for e c).head? := by
  cases c <;> rfl

theorem Lib.lib_list_for_of_str (e : Env) (c : Category) (s : List Char)
    (h : e c.envKey = EnvValue.str s) :
    Lib.list_for e c = splitOnColon s := by
  rw [Lib.lib_list_for_unfold]
  simp [env_var, Except.toOption, h]

theorem Lib.lib_list_for_of_absent (e : Env) (c : Category)
    (h : e c.envKey = EnvValue.unset ∨ e c.envKey = EnvValue.notUnicode) :
    Lib.list_for e c = [] := by
  rw [Lib.lib_list_for_unfold]
  rcases h with h | h <;> simp [env_var, Except.toOption, h]

theorem SystemdDirs.list_new (e : Env) (c : Category) :
    (SystemdDirs.new e).list c = Standalone.list_for e c := by
  cases c <;>
    simp [SystemdDirs.new, SystemdDirs.list, SystemdDirs.runtimeDirs,
      SystemdDirs.stateDirs, SystemdDirs.cacheDirs, SystemdDirs.logsDirs,
      SystemdDirs.configDirs, SystemdDirs.as_paths, Standalone.list_for]

theorem SystemdDirs.primary_eq_head_list (d : SystemdDirs) (c : Category) :
    d.primary c = (d.list c).head? := by
  cases c <;> rfl

theorem SystemdDirs.primary_new (e : Env) (c : Category) :
    (SystemdDirs.new e).primary c = (Standalone.list_for e c).head? := by
  rw [SystemdDirs.primary_eq_head_list, SystemdDirs.list_new]

/-- Concrete environment with every variable unset. -/
def envEmpty : Env := fun _ => EnvValue.unset

/-- Concrete environment with `RUNTIME_DIRECTORY` set to `a:b:c`. -/
def envABC : Env :=
  Env.set envEmpty RUNTIME_DIRECTORY (EnvValue.str ['a', ':', 'b', ':', 'c'])

/-- Concrete environment with `RUNTIME_DIRECTORY` set to `a::b`. -/
def envDoubleColon : Env :=
  Env.set envEmpty RUNTIME_DIRECTORY (EnvValue.str ['a', ':', ':', 'b'])

/-- Concrete environment with `STATE_DIRECTORY` set to `:a:`. -/
def envColonA : Env :=
  Env.set envEmpty STATE_DIRECTORY (EnvValue.str [':', 'a', ':'])

/-- Concrete environment with `RUNTIME_DIRECTORY` set to the empty string. -/
def envEmptyValue : Env :=
  Env.set envEmpty RUNTIME_DIRECTORY (EnvValue.str [])

/-- Concrete environment with `CACHE_DIRECTORY` set to a non-Unicode value. -/
def envNotUnicode : Env :=
  Env.set envEmpty CACHE_DIRECTORY EnvValue.notUnicode

/-- Concrete environment with `STATE_DIRECTORY` set to `/s` and
`CACHE_DIRECTORY` set to `/x`. -/
def envCacheX : Env :=
  Env.set (Env.set envEmpty STATE_DIRECTORY (EnvValue.str ['/', 's']))
    CACHE_DIRECTORY (EnvValue.str ['/', 'x'])

/-- Concrete environment with `STATE_DIRECTORY` set to `/s` and
`CACHE_DIRECTORY` set to `/y`. -/
def envCacheY : Env :=
  Env.set (Env.set envEmpty STATE_DIRECTORY (EnvValue.str ['/', 's']))
    CACHE_DIRECTORY (EnvValue.str ['/', 'y'])

/-- C1: when a category's environment variable is set to a string value `v`,
the standalone live list operation returns exactly the non-empty segments of
`v` split on the ASCII colon, in their order of appearance; empty segments
from a leading, trailing, or doubled colon are dropped. -/
theorem C1_list_is_nonempty_colon_segments (e : Env) (c : Category)
    (v : List Char) (h : e c.envKey = EnvValue.str v) :
    Standalone.list_for e c = (splitOnColon v).filter (fun p => !p.isEmpty) :=
  Standalone.list_for_str e c v h

/-- C1 witness: the spec examples `a:b:c` → `[a, b, c]`, `a::b` → `[a, b]`,
`:a:` → `[a]`, and the empty string → `[]`. -/
theorem C1_witness :
    (Standalone.list_for envABC Category.runtime
      = (splitOnColon ['a', ':', 'b', ':', 'c']).filter (fun p => !p.isEmpty)) ∧
    Standalone.list_for envABC Category.runtime = [['a'], ['b'], ['c']] ∧
    Standalone.list_for envDoubleColon Category.runtime = [['a'], ['b']] ∧
    Standalone.list_for envColonA Category.state = [['a']] ∧
    Standalone.list_for envEmptyValue Category.runtime = [] :=
  ⟨C1_list_is_nonempty_colon_segments envABC Category.runtime
      (['a', ':', 'b', ':', 'c']) (by decide),
    by decide, by decide, by decide, by decide⟩

/-- C2: for every environment and category, the live primary is the first
element of the live list (present exactly when the list is non-empty), and
every snapshot's primary accessor is the first element of its list accessor
(present exactly when that list is non-empty). -/
theorem C2_primary_consistent_with_list (e : Env) (c : Category) :
    Standalone.primary_for e c = (Standalone.list_for e c).head? ∧
    ((Standalone.primary_for e c).isSome ↔ Standalone.list_for e c ≠ []) ∧
    (∀ d : SystemdDirs, d.primary c = (d.list c).head? ∧
      ((d.primary c).isSome ↔ d.list c ≠ [])) := by
  refine ⟨Standalone.primary_eq_head e c, ?_,
    fun d => ⟨SystemdDirs.primary_eq_head_list d c, ?_⟩⟩
  · rw [Standalone.primary_eq_head]
    exact List.head?_isSome
  · rw [SystemdDirs.primary_eq_head_list]
    exact List.head?_isSome

/-- C3: constructing a snapshot stores, for each category, exactly the result
of the standalone live list on the construction-time environment, and the
snapshot's `list` and `primary` accessors return those captured values. -/
theorem C3_snapshot_captures_construction (e : Env) (c : Category) :
    (SystemdDirs.new e).list c = Standalone.list_for e c ∧
    (SystemdDirs.new e).primary c = (Standalone.list_for e c).head? ∧
    (SystemdDirs.new e).runtime_dirs = Standalone.runtime_dirs e ∧
    (SystemdDirs.new e).state_dirs = Standalone.state_dirs e ∧
    (SystemdDirs.new e).cache_dirs = Standalone.cache_dirs e ∧
    (SystemdDirs.new e).logs_dirs = Standalone.logs_dirs e ∧
    (SystemdDirs.new e).config_dirs = Standalone.config_dirs e :=
  ⟨SystemdDirs.list_new e c, SystemdDirs.primary_new e c, rfl, rfl, rfl, rfl,
    rfl⟩

/-- C4: snapshot isolation — a snapshot constructed while a category's
variable is set to `X` reports the parse of `X` through `list` and `primary`,
and this is unaffected by a later mutation of the variable to `Y` or by
unsetting it, while a live query after the mutation reports the parse of the
new value. -/
theorem C4_snapshot_isolation (e : Env) (c : Category) (X Y : List Char) :
    (SystemdDirs.new (e.set c.envKey (EnvValue.str X))).list c
      = (splitOnColon X).filter (fun p => !p.isEmpty) ∧
    (SystemdDirs.new (e.set c.envKey (EnvValue.str X))).primary c
      = ((splitOnColon X).filter (fun p => !p.isEmpty)).head? ∧
    Standalone.list_for
        ((e.set c.envKey (EnvValue.str X)).set c.envKey (EnvValue.str Y)) c
      = (splitOnColon Y).filter (fun p => !p.isEmpty) ∧
    Standalone.list_for
        ((e.set c.envKey (EnvValue.str X)).set c.envKey EnvValue.unset) c
      = [] := by
  have hX := Standalone.list_for_str (e.set c.envKey (EnvValue.str X)) c X
    (Env.set_self e c.envKey (EnvValue.str X))
  refine ⟨?_, ?_, ?_, ?_⟩
  · rw [SystemdDirs.list_new]
    exact hX
  · rw [SystemdDirs.primary_new, hX]
  · exact Standalone.list_for_str _ c Y
      (Env.set_self (e.set c.envKey (EnvValue.str X)) c.envKey (EnvValue.str Y))
  · exact Standalone.list_for_absent _ c
      (Or.inl (Env.set_self (e.set c.envKey (EnvValue.str X)) c.envKey
        EnvValue.unset))

/-- C5: no operation fails — with a category's variable unset, or set to a
non-decodable value, the live list operations (both generations), the live
primary operations, and a snapshot taken of that environment all degrade to
the empty list and absent primary. -/
theorem C5_absence_degrades_to_empty (e : Env) (c : Category)
    (h : e c.envKey = EnvValue.unset ∨ e c.envKey = EnvValue.notUnicode) :
    Standalone.list_for e c = [] ∧ Standalone.primary_for e c = none ∧
    Lib.list_for e c = [] ∧ Lib.primary_for e c = none ∧
    (SystemdDirs.new e).list c = [] ∧ (SystemdDirs.new e).primary c = none := by
  have h1 := Standalone.list_for_absent e c h
  have h2 := Lib.lib_list_for_of_absent e c h
  refine ⟨h1, ?_, h2, ?_, ?_, ?_⟩
  · rw [Standalone.primary_eq_head, h1]
    rfl
  · rw [Lib.lib_primary_for_head, h2]
    rfl
  · rw [SystemdDirs.list_new]
    exact h1
  · rw [SystemdDirs.primary_new, h1]
    rfl

/-- C5 witness: a fully unset environment at the Runtime category, and an
environment whose `CACHE_DIRECTORY` holds a non-Unicode value at the Cache
category. -/
theorem C5_witness :
    (Standalone.list_for envEmpty Category.runtime = [] ∧
      Standalone.primary_for envEmpty Category.runtime = none ∧
      Lib.list_for envEmpty Category.runtime = [] ∧
      Lib.primary_for envEmpty Category.runtime = none ∧
      (SystemdDirs.new envEmpty).list Category.runtime = [] ∧
      (SystemdDirs.new envEmpty).primary Category.runtime = none) ∧
    (Standalone.list_for envNotUnicode Category.cache = [] ∧
      Standalone.primary_for envNotUnicode Category.cache = none ∧
      Lib.list_for envNotUnicode Category.cache = [] ∧
      Lib.primary_for envNotUnicode Category.cache = none ∧
      (SystemdDirs.new envNotUnicode).list Category.cache = [] ∧
      (SystemdDirs.new envNotUnicode).primary Category.cache = none) :=
  ⟨C5_absence_degrades_to_empty envEmpty Category.runtime (Or.inl (by decide)),
    C5_absence_degrades_to_empty envNotUnicode Category.cache
      (Or.inr (by decide))⟩

/-- C6 counterexample: with `RUNTIME_DIRECTORY` set to the empty string — a
value that contains no colon — the standalone live list is empty rather than
the one-element list containing the empty path, and the primary is absent
rather than present. -/
theorem C6_counterexample :
    envEmptyValue (Category.runtime.envKey) = EnvValue.str [] ∧
    Standalone.list_for envEmptyValue Category.runtime ≠ [([] : List Char)] ∧
    Standalone.list_for envEmptyValue Category.runtime = [] ∧
    Standalone.primary_for envEmptyValue Category.runtime
      ≠ some ([] : List Char) ∧
    Standalone.primary_for envEmptyValue Category.runtime = none := by
  decide

/-- C6 amended: for every category and every non-empty value `V` that does
not contain a colon, setting the variable to `V` and querying yields the
single-element list `[V]` and the present primary `V`. -/
theorem C6_singleton_for_colonless_value (e : Env) (c : Category)
    (V : List Char) (hne : V ≠ []) (hc : ':' ∉ V) :
    Standalone.list_for (e.set c.envKey (EnvValue.str V)) c = [V] ∧
    Standalone.primary_for (e.set c.envKey (EnvValue.str V)) c = some V := by
  have h := Standalone.list_for_str (e.set c.envKey (EnvValue.str V)) c V
    (Env.set_self e c.envKey (EnvValue.str V))
  rw [splitOnColon_of_not_mem V hc] at h
  have hfil : ([V].filter (fun p => !p.isEmpty)) = [V] := by
    have : V.isEmpty = false := by
      simp [List.isEmpty_iff, hne]
    simp [List.filter, this]
  rw [hfil] at h
  refine ⟨h, ?_⟩
  rw [Standalone.primary_eq_head, h]
  rfl

/-- C6 witness: the colonless non-empty value `/run` at the Logs category. -/
theorem C6_witness :
    ((['/', 'r', 'u', 'n'] : List Char) ≠ [] ∧
      ':' ∉ (['/', 'r', 'u', 'n'] : List Char)) ∧
    Standalone.list_for
        (envEmpty.set (Category.logs.envKey) (EnvValue.str ['/', 'r', 'u', 'n']))
        Category.logs
      = [['/', 'r', 'u', 'n']] ∧
    Standalone.primary_for
        (envEmpty.set (Category.logs.envKey) (EnvValue.str ['/', 'r', 'u', 'n']))
        Category.logs
      = some ['/', 'r', 'u', 'n'] :=
  ⟨⟨by decide, by decide⟩,
    (C6_singleton_for_colonless_value envEmpty Category.logs
      (['/', 'r', 'u', 'n']) (by decide) (by decide)).1,
    (C6_singleton_for_colonless_value envEmpty Category.logs
      (['/', 'r', 'u', 'n']) (by decide) (by decide)).2⟩

/-- C7: noninterference — for any two environments that agree on a category's
own variable (and may differ arbitrarily elsewhere), the live list and
primary results for that category agree, in both generations of the live
functions. -/
theorem C7_noninterference (e1 e2 : Env) (c : Category)
    (h : e1 c.envKey = e2 c.envKey) :
    Standalone.list_for e1 c = Standalone.list_for e2 c ∧
    Standalone.primary_for e1 c = Standalone.primary_for e2 c ∧
    Lib.list_for e1 c = Lib.list_for e2 c ∧
    Lib.primary_for e1 c = Lib.primary_for e2 c := by
  have hv := env_var_congr e1 e2 c.envKey h
  have hlist : Standalone.list_for e1 c = Standalone.list_for e2 c := by
    rw [Standalone.list_for_eq, Standalone.list_for_eq]
    unfold Standalone.ColonSeparatedPaths.from_env_key
    rw [hv]
  have hlib : Lib.list_for e1 c = Lib.list_for e2 c := by
    rw [Lib.lib_list_for_unfold, Lib.lib_list_for_unfold, hv]
  refine ⟨hlist, ?_, hlib, ?_⟩
  · rw [Standalone.primary_eq_head, Standalone.primary_eq_head, hlist]
  · rw [Lib.lib_primary_for_head, Lib.lib_primary_for_head, hlib]

/-- C7 witness: two environments sharing `STATE_DIRECTORY` = `/s` but holding
different `CACHE_DIRECTORY` values; the State results agree while the Cache
results differ. -/
theorem C7_witness :
    envCacheX (Category.state.envKey) = envCacheY (Category.state.envKey) ∧
    Standalone.list_for envCacheX Category.state
      = Standalone.list_for envCacheY Category.state ∧
    Standalone.list_for envCacheX Category.state = [['/', 's']] ∧
    Standalone.list_for envCacheX Category.cache
      ≠ Standalone.list_for envCacheY Category.cache :=
  ⟨by decide,
    (C7_noninterference envCacheX envCacheY Category.state (by decide)).1,
    by decide, by decide⟩

/-- C8: default construction of a snapshot is equivalent to explicit
construction, in both `src/systemd_dirs.rs` and the legacy `src/lib.rs`
implementation, and hence all accessor results coincide. -/
theorem C8_default_is_new (e : Env) :
    SystemdDirs.default e = SystemdDirs.new e ∧
    LibSystemdDirs.default e = LibSystemdDirs.new e ∧
    (∀ c : Category,
      (SystemdDirs.default e).list c = (SystemdDirs.new e).list c ∧
      (SystemdDirs.default e).primary c = (SystemdDirs.new e).primary c) :=
  ⟨rfl, rfl, fun _ => ⟨rfl, rfl⟩⟩

/-- C9: in the legacy `lib.rs` implementation, when a category's variable is
set to `s` the live list has length exactly one more than the number of
colons in `s`, so it is never empty and the primary is present; in particular
the empty string yields the one-element list containing the empty path. -/
theorem C9_lib_list_length_colons_plus_one (e : Env) (c : Category)
    (s : List Char) (h : e c.envKey = EnvValue.str s) :
    (Lib.list_for e c).length = s.count ':' + 1 ∧
    Lib.list_for e c ≠ [] ∧
    (Lib.primary_for e c).isSome = true ∧
    (s = [] → Lib.list_for e c = [[]]) := by
  have hl := Lib.lib_list_for_of_str e c s h
  refine ⟨?_, ?_, ?_, ?_⟩
  · rw [hl]
    exact splitOnColon_length s
  · rw [hl]
    exact splitOnColon_ne_nil s
  · rw [Lib.lib_primary_for_head, hl]
    exact List.head?_isSome.mpr (splitOnColon_ne_nil s)
  · intro hs
    subst hs
    rw [hl]
    rfl

/-- C9 witness: `RUNTIME_DIRECTORY` set to the empty string, where the legacy
list is the one-element list containing the empty path and the primary is
present. -/
theorem C9_witness :
    (Lib.list_for envEmptyValue Category.runtime).length
      = ([] : List Char).count ':' + 1 ∧
    Lib.list_for envEmptyValue Category.runtime = [[]] ∧
    Lib.primary_for envEmptyValue Category.runtime = some [] :=
  ⟨(C9_lib_list_length_colons_plus_one envEmptyValue Category.runtime []
      (by decide)).1,
    by decide, by decide⟩

/-- C10: every live query is a deterministic function of the environment —
equal environments give equal results — and the standalone primary, although
it performs its own environment read, agrees with the first element of the
standalone list (likewise for the legacy functions). -/
theorem C10_deterministic_primary_agrees (e e' : Env) (c : Category)
    (h : e = e') :
    Standalone.list_for e c = Standalone.list_for e' c ∧
    Standalone.primary_for e c = Standalone.primary_for e' c ∧
    Lib.list_for e c = Lib.list_for e' c ∧
    Lib.primary_for e c = Lib.primary_for e' c ∧
    Standalone.primary_for e c = (Standalone.list_for e c).head? ∧
    Lib.primary_for e c = (Lib.list_for e c).head? := by
  subst h
  exact ⟨rfl, rfl, rfl, rfl, Standalone.primary_eq_head e c,
    Lib.lib_primary_for_head e c⟩

/-- C10 witness: at the environment with `RUNTIME_DIRECTORY` = `a:b:c`, the
standalone primary equals the head of the standalone list, namely `a`. -/
theorem C10_witness :
    Standalone.primary_for envABC Category.runtime
      = (Standalone.list_for envABC Category.runtime).head? ∧
    Standalone.primary_for envABC Category.runtime = some ['a'] :=
  ⟨(C10_deterministic_primary_agrees envABC envABC Category.runtime
      rfl).2.2.2.2.1,
    by decide⟩

end SystemdDirectories
